import Mathlib

/-!
Verification of the SpekCheck spectrum generator (create-spectrum.py).

The embedding follows the source function wavelength2rgb line by line:
an input array is a shape together with flat rational data; the pre-gamma
ramp and the fall-off factor are written as the sequence of masked
assignments of the source (starting from zeros, resp. ones); the final
power step is parametrised by the power function so that the real power
Real.rpow can be supplied in the statements.
-/

namespace SpekCheck

/-- An input numpy array: its shape and its flat numeric data. -/
structure NDArray where
  shape : List Nat
  data : List ℚ
  deriving DecidableEq, Repr

/-- An output array of RGB triples: shape and flat data of triples. -/
structure RGBArray where
  shape : List Nat
  data : List (ℝ × ℝ × ℝ)

/-- The pre-factor, pre-gamma RGB value of one wavelength, written as the
sequence of masked assignments of the source: rgb starts at zeros and each
band mask assigns only the channels the source assigns. -/
def rgbPre (nm : ℚ) : ℚ × ℚ × ℚ :=
  let rgb : ℚ × ℚ × ℚ := (0, 0, 0)
  let rgb := if 380 ≤ nm ∧ nm < 440 then (-(nm - 440) / 60, rgb.2.1, 1) else rgb
  let rgb := if 440 ≤ nm ∧ nm < 490 then (rgb.1, (nm - 440) / 50, 1) else rgb
  let rgb := if 490 ≤ nm ∧ nm < 510 then (rgb.1, 1, -(nm - 510) / 20) else rgb
  let rgb := if 510 ≤ nm ∧ nm < 580 then ((nm - 510) / 70, 1, rgb.2.2) else rgb
  let rgb := if 580 ≤ nm ∧ nm < 645 then (1, -(nm - 645) / 65, rgb.2.2) else rgb
  let rgb := if 645 ≤ nm ∧ nm < 780 then (1, rgb.2.1, rgb.2.2) else rgb
  rgb

/-- The intensity fall-off factor of one wavelength, written as the
sequence of masked assignments of the source: factor starts at one. -/
def falloff (nm : ℚ) : ℚ :=
  let f : ℚ := 1
  let f := if 380 ≤ nm ∧ nm < 420 then 3/10 + 7/10 * (nm - 380) / 40 else f
  let f := if 700 < nm ∧ nm ≤ 780 then 3/10 + 7/10 * (780 - nm) / 80 else f
  f

/-- The channel values of one wavelength after multiplication by the
fall-off factor, just before gamma is applied (source line rgb *= factor). -/
def scaled (nm : ℚ) : ℚ × ℚ × ℚ :=
  ((rgbPre nm).1 * falloff nm, (rgbPre nm).2.1 * falloff nm,
    (rgbPre nm).2.2 * falloff nm)

/-- The final RGB triple of one wavelength: each scaled channel raised to
the power gamma (source line rgb **= gamma), with the power function a
parameter so the real power can be supplied in statements. -/
def wavelength2rgbElem (pw : ℝ → ℝ → ℝ) (g : ℝ) (nm : ℚ) : ℝ × ℝ × ℝ :=
  (pw ((scaled nm).1 : ℝ) g, pw ((scaled nm).2.1 : ℝ) g,
    pw ((scaled nm).2.2 : ℝ) g)

/-- The whole mapper on an array: a one dimensional input of size n is
reshaped to (1, n); more than two dimensions raise; otherwise the shape
gains a trailing dimension of size 3 and every element is mapped. -/
def wavelength2rgb (pw : ℝ → ℝ → ℝ) (a : NDArray) (g : ℝ) :
    Except String RGBArray :=
  match a.shape with
  | [n] => .ok ⟨[1, n, 3], a.data.map (wavelength2rgbElem pw g)⟩
  | s =>
    if 2 < s.length then .error "NM has more than 2 dimensions"
    else .ok ⟨s ++ [3], a.data.map (wavelength2rgbElem pw g)⟩

/-- The wavelength domain built by main: numpy.array(range(380, 780)). -/
def mainNM : NDArray :=
  ⟨[400], (List.range 400).map fun i : ℕ => ((380 + i : ℕ) : ℚ)⟩

/-- The RGB array computed by main: the mapper on the 380..779 domain with
the default gamma 0.8. -/
def mainRGB (pw : ℝ → ℝ → ℝ) : Except String RGBArray :=
  wavelength2rgb pw mainNM ((4/5 : ℚ) : ℝ)

/-- The piecewise half-open band table as the spec states it, to be
compared with the masked-assignment definition from the source.  Generic
over the ordered field so the same formulas serve the exact rational
semantics and the real-valued continuity analysis. -/
def rgbPreSpec {α : Type*} [LinearOrderedField α] (nm : α) : α × α × α :=
  if 380 ≤ nm ∧ nm < 440 then (-(nm - 440) / 60, 0, 1)
  else if 440 ≤ nm ∧ nm < 490 then (0, (nm - 440) / 50, 1)
  else if 490 ≤ nm ∧ nm < 510 then (0, 1, -(nm - 510) / 20)
  else if 510 ≤ nm ∧ nm < 580 then ((nm - 510) / 70, 1, 0)
  else if 580 ≤ nm ∧ nm < 645 then (1, -(nm - 645) / 65, 0)
  else if 645 ≤ nm ∧ nm < 780 then (1, 0, 0)
  else (0, 0, 0)

/-- The fall-off factor as the spec states it: the two edge formulas and
1.0 everywhere else, to be compared with the definition from the source. -/
def falloffSpec {α : Type*} [LinearOrderedField α] (nm : α) : α :=
  if 380 ≤ nm ∧ nm < 420 then 3/10 + 7/10 * (nm - 380) / 40
  else if 700 < nm ∧ nm ≤ 780 then 3/10 + 7/10 * (780 - nm) / 80
  else 1

lemma rgbPre_eq_spec (nm : ℚ) : rgbPre nm = rgbPreSpec nm := by
  unfold rgbPre rgbPreSpec
  split_ifs <;> simp_all <;> linarith

lemma falloff_eq_spec (nm : ℚ) : falloff nm = falloffSpec nm := by
  unfold falloff falloffSpec
  split_ifs <;> simp_all <;> linarith

lemma rgbPre_bounds (nm : ℚ) :
    0 ≤ (rgbPre nm).1 ∧ (rgbPre nm).1 ≤ 1 ∧
      0 ≤ (rgbPre nm).2.1 ∧ (rgbPre nm).2.1 ≤ 1 ∧
      0 ≤ (rgbPre nm).2.2 ∧ (rgbPre nm).2.2 ≤ 1 := by
  rw [rgbPre_eq_spec]
  unfold rgbPreSpec
  split_ifs <;> refine ⟨?_, ?_, ?_, ?_, ?_, ?_⟩ <;> (try casesm* _ ∧ _) <;>
    (try norm_num) <;> linarith

lemma falloff_bounds (nm : ℚ) : 0 ≤ falloff nm ∧ falloff nm ≤ 1 := by
  rw [falloff_eq_spec]
  unfold falloffSpec
  split_ifs <;> refine ⟨?_, ?_⟩ <;> (try casesm* _ ∧ _) <;> (try norm_num) <;>
    linarith

lemma scaled_bounds (nm : ℚ) :
    0 ≤ (scaled nm).1 ∧ (scaled nm).1 ≤ 1 ∧
      0 ≤ (scaled nm).2.1 ∧ (scaled nm).2.1 ≤ 1 ∧
      0 ≤ (scaled nm).2.2 ∧ (scaled nm).2.2 ≤ 1 := by
  obtain ⟨hr0, hr1, hg0, hg1, hb0, hb1⟩ := rgbPre_bounds nm
  obtain ⟨hf0, hf1⟩ := falloff_bounds nm
  unfold scaled
  refine ⟨?_, ?_, ?_, ?_, ?_, ?_⟩ <;>
    first
      | exact mul_nonneg (by assumption) hf0
      | exact mul_le_one₀ (by assumption) hf0 hf1

lemma rgbPre_outside (nm : ℚ) (h : ¬(380 ≤ nm ∧ nm < 780)) :
    rgbPre nm = (0, 0, 0) := by
  rw [rgbPre_eq_spec]
  unfold rgbPreSpec
  push_neg at h
  split_ifs <;> (try casesm* _ ∧ _) <;>
    first | rfl | exact absurd (h (by linarith)) (by linarith)

lemma scaled_outside (nm : ℚ) (h : ¬(380 ≤ nm ∧ nm < 780)) :
    scaled nm = (0, 0, 0) := by
  unfold scaled
  rw [rgbPre_outside nm h]
  norm_num

lemma rpow_unit {x : ℚ} (hx0 : 0 ≤ x) (hx1 : x ≤ 1) {g : ℝ} (hg : 0 ≤ g) :
    0 ≤ Real.rpow (x : ℝ) g ∧ Real.rpow (x : ℝ) g ≤ 1 :=
  ⟨Real.rpow_nonneg (by exact_mod_cast hx0) g,
    Real.rpow_le_one (by exact_mod_cast hx0) (by exact_mod_cast hx1) hg⟩

lemma elem_bounds {g : ℝ} (hg : 0 ≤ g) (nm : ℚ) :
    (0 ≤ (wavelength2rgbElem Real.rpow g nm).1 ∧
        (wavelength2rgbElem Real.rpow g nm).1 ≤ 1) ∧
      (0 ≤ (wavelength2rgbElem Real.rpow g nm).2.1 ∧
        (wavelength2rgbElem Real.rpow g nm).2.1 ≤ 1) ∧
      (0 ≤ (wavelength2rgbElem Real.rpow g nm).2.2 ∧
        (wavelength2rgbElem Real.rpow g nm).2.2 ≤ 1) := by
  obtain ⟨h10, h11, h20, h21, h30, h31⟩ := scaled_bounds nm
  exact ⟨rpow_unit h10 h11 hg, rpow_unit h20 h21 hg, rpow_unit h30 h31 hg⟩

lemma wavelength2rgb_ok_data (pw : ℝ → ℝ → ℝ) (g : ℝ) (a : NDArray)
    (out : RGBArray) (h : wavelength2rgb pw a g = Except.ok out) :
    out.data = a.data.map (wavelength2rgbElem pw g) := by
  unfold wavelength2rgb at h
  split at h
  · cases h
    rfl
  · split at h
    · cases h
    · cases h
      rfl

/-- C1: for every wavelength the pre-factor, pre-gamma RGB value follows
exactly the piecewise half-open band table; in particular nm = 440 falls
in the band [440,490) and yields (0, 0, 1), while nm = 439.999 falls in
the band [380,440) and yields its ramp value. -/
theorem rgbPre_piecewise_bands :
    (∀ nm : ℚ, rgbPre nm = rgbPreSpec nm) ∧
      rgbPre (440 : ℚ) = (0, 0, 1) ∧
      rgbPre ((439999 : ℚ)/1000) = (-((439999 : ℚ)/1000 - 440) / 60, 0, 1) := by
  refine ⟨rgbPre_eq_spec, ?_, ?_⟩ <;> norm_num [rgbPre]

/-- C4: the attenuation factor follows exactly the two edge formulas and
is 1 elsewhere, and every channel is first multiplied by the factor of its
wavelength and only then raised to the power gamma. -/
theorem falloff_formula_and_order :
    (∀ nm : ℚ, falloff nm = falloffSpec nm) ∧
      ∀ (pw : ℝ → ℝ → ℝ) (g : ℝ) (nm : ℚ),
        wavelength2rgbElem pw g nm =
          (pw (((rgbPre nm).1 * falloff nm : ℚ) : ℝ) g,
            pw (((rgbPre nm).2.1 * falloff nm : ℚ) : ℝ) g,
            pw (((rgbPre nm).2.2 * falloff nm : ℚ) : ℝ) g) :=
  ⟨falloff_eq_spec, fun _ _ _ => rfl⟩

/-- C6: for every wavelength the channel values at the moment gamma is
applied (after ramp and factor) lie in [0,1]; in particular no negative
base is ever raised to the power gamma. -/
theorem scaled_channels_unit_interval :
    ∀ nm : ℚ,
      (0 ≤ (scaled nm).1 ∧ (scaled nm).1 ≤ 1) ∧
        (0 ≤ (scaled nm).2.1 ∧ (scaled nm).2.1 ≤ 1) ∧
        (0 ≤ (scaled nm).2.2 ∧ (scaled nm).2.2 ≤ 1) := by
  intro nm
  obtain ⟨h10, h11, h20, h21, h30, h31⟩ := scaled_bounds nm
  exact ⟨⟨h10, h11⟩, ⟨h20, h21⟩, ⟨h30, h31⟩⟩

/-- C2 counterexample: a one dimensional input of size 5 yields an output
of shape [1, 5, 3], not the input shape with a trailing 3 appended, and
with the gamma exponent -1 a channel value exceeds 1. -/
theorem mapper_shape_range_counterexample :
    (wavelength2rgb Real.rpow ⟨[5], [380, 480, 550, 650, 750]⟩
        ((4/5 : ℚ) : ℝ)).map RGBArray.shape ≠ Except.ok ([5] ++ [3]) ∧
      1 < (wavelength2rgbElem Real.rpow (-1) 390).1 := by
  constructor
  · intro h
    simp only [wavelength2rgb, Except.map] at h
    exact absurd (Except.ok.inj h) (by decide)
  · have hs : (scaled (390 : ℚ)).1 = 19/48 := by
      norm_num [scaled, rgbPre, falloff]
    have hc : ((scaled (390 : ℚ)).1 : ℝ) = 19/48 := by
      rw [hs]
      push_cast
      ring
    show 1 < Real.rpow ((scaled (390 : ℚ)).1 : ℝ) (-1)
    rw [hc, show Real.rpow ((19 : ℝ)/48) (-1) = ((19 : ℝ)/48) ^ (-1 : ℝ) from rfl,
      Real.rpow_neg_one]
    norm_num

/-- C2 amended: a one dimensional input of size n yields shape [1, n, 3],
a two dimensional input of shape r x c yields shape [r, c, 3], and for
every nonnegative gamma every entry of the output lies in [0,1]. -/
theorem mapper_shape_and_range :
    (∀ (n : ℕ) (d : List ℚ) (pw : ℝ → ℝ → ℝ) (g : ℝ),
        (wavelength2rgb pw ⟨[n], d⟩ g).map RGBArray.shape =
          Except.ok [1, n, 3]) ∧
      (∀ (r c : ℕ) (d : List ℚ) (pw : ℝ → ℝ → ℝ) (g : ℝ),
        (wavelength2rgb pw ⟨[r, c], d⟩ g).map RGBArray.shape =
          Except.ok [r, c, 3]) ∧
      ∀ (g : ℝ), 0 ≤ g → ∀ (a : NDArray) (out : RGBArray),
        wavelength2rgb Real.rpow a g = Except.ok out →
          ∀ t ∈ out.data,
            (0 ≤ t.1 ∧ t.1 ≤ 1) ∧ (0 ≤ t.2.1 ∧ t.2.1 ≤ 1) ∧
              (0 ≤ t.2.2 ∧ t.2.2 ≤ 1) := by
  refine ⟨fun n d pw g => rfl, fun r c d pw g => rfl, ?_⟩
  intro g hg a out hok t ht
  rw [wavelength2rgb_ok_data _ _ _ _ hok] at ht
  obtain ⟨nm, _, rfl⟩ := List.mem_map.mp ht
  exact elem_bounds hg nm

/-- C2 witness. -/
theorem mapper_shape_and_range_witness :
    (0 : ℝ) ≤ ((4/5 : ℚ) : ℝ) ∧
      wavelength2rgb Real.rpow ⟨[1], [550]⟩ ((4/5 : ℚ) : ℝ) =
        Except.ok ⟨[1, 1, 3], [wavelength2rgbElem Real.rpow ((4/5 : ℚ) : ℝ) 550]⟩ ∧
      (0 ≤ (wavelength2rgbElem Real.rpow ((4/5 : ℚ) : ℝ) 550).1 ∧
          (wavelength2rgbElem Real.rpow ((4/5 : ℚ) : ℝ) 550).1 ≤ 1) ∧
        (0 ≤ (wavelength2rgbElem Real.rpow ((4/5 : ℚ) : ℝ) 550).2.1 ∧
          (wavelength2rgbElem Real.rpow ((4/5 : ℚ) : ℝ) 550).2.1 ≤ 1) ∧
        (0 ≤ (wavelength2rgbElem Real.rpow ((4/5 : ℚ) : ℝ) 550).2.2 ∧
          (wavelength2rgbElem Real.rpow ((4/5 : ℚ) : ℝ) 550).2.2 ≤ 1) :=
  ⟨by norm_num, rfl,
    mapper_shape_and_range.2.2 ((4/5 : ℚ) : ℝ) (by norm_num)
      ⟨[1], [550]⟩ ⟨[1, 1, 3], [wavelength2rgbElem Real.rpow ((4/5 : ℚ) : ℝ) 550]⟩
      rfl _ (by simp)⟩

/-- C3 counterexample: a rank zero input is not rejected: the mapper
returns a result of shape [3] instead of signalling the shape error. -/
theorem rank_zero_not_rejected :
    (wavelength2rgb Real.rpow ⟨[], [500]⟩ ((4/5 : ℚ) : ℝ)).map
        RGBArray.shape = Except.ok [3] ∧
      wavelength2rgb Real.rpow ⟨[], [500]⟩ ((4/5 : ℚ) : ℝ) ≠
        Except.error "NM has more than 2 dimensions" := by
  refine ⟨rfl, fun h => ?_⟩
  simp only [wavelength2rgb] at h
  cases h

/-- C3 amended: an input of rank greater than 2 signals the shape failure
immediately, for every data content and gamma, while rank 0 and ranks 1
and 2 do not; the failure is the single runtime error of the source. -/
theorem rank_gt_two_rejected :
    ∀ (pw : ℝ → ℝ → ℝ) (g : ℝ) (a : NDArray), 2 < a.shape.length →
      wavelength2rgb pw a g = Except.error "NM has more than 2 dimensions" := by
  intro pw g a h
  unfold wavelength2rgb
  split
  · rename_i n heq
    rw [heq] at h
    simp at h
  · rw [if_pos h]

/-- C3 witness. -/
theorem rank_gt_two_rejected_witness :
    2 < ([2, 2, 2] : List ℕ).length ∧
      wavelength2rgb Real.rpow ⟨[2, 2, 2], [400]⟩ 1 =
        Except.error "NM has more than 2 dimensions" :=
  ⟨by decide, rank_gt_two_rejected Real.rpow 1 ⟨[2, 2, 2], [400]⟩ (by decide)⟩

/-- C5 counterexample: at the gamma exponent 0 a wavelength outside
[380,780) yields (1, 1, 1), not (0, 0, 0), so the output is not
independent of gamma. -/
theorem outside_range_gamma_counterexample :
    wavelength2rgbElem Real.rpow 0 800 = (1, 1, 1) ∧
      ((1, 1, 1) : ℝ × ℝ × ℝ) ≠ (0, 0, 0) := by
  constructor
  · have hs : scaled (800 : ℚ) = (0, 0, 0) := scaled_outside 800 (by norm_num)
    show (Real.rpow ((scaled (800 : ℚ)).1 : ℝ) 0, Real.rpow ((scaled (800 : ℚ)).2.1 : ℝ) 0,
        Real.rpow ((scaled (800 : ℚ)).2.2 : ℝ) 0) = (1, 1, 1)
    rw [hs]
    norm_num [Real.rpow_zero]
  · norm_num [Prod.ext_iff]

/-- C5 amended: for every wavelength outside [380,780) and every positive
gamma the output triple is exactly (0, 0, 0). -/
theorem outside_range_zero :
    ∀ (nm : ℚ) (g : ℝ), ¬(380 ≤ nm ∧ nm < 780) → 0 < g →
      wavelength2rgbElem Real.rpow g nm = (0, 0, 0) := by
  intro nm g h hg
  have hs := scaled_outside nm h
  show (Real.rpow ((scaled nm).1 : ℝ) g, Real.rpow ((scaled nm).2.1 : ℝ) g,
      Real.rpow ((scaled nm).2.2 : ℝ) g) = (0, 0, 0)
  rw [hs]
  norm_num [Real.zero_rpow hg.ne']

/-- C5 witness. -/
theorem outside_range_zero_witness :
    ¬((380 : ℚ) ≤ 800 ∧ (800 : ℚ) < 780) ∧ (0 : ℝ) < 1 ∧
      wavelength2rgbElem Real.rpow 1 800 = (0, 0, 0) :=
  ⟨by norm_num, by norm_num, outside_range_zero 800 1 (by norm_num) (by norm_num)⟩

/-- C9: the mapper is deterministic: its result is a function of the
input shape, the input data and gamma alone, for any power function. -/
theorem mapper_deterministic :
    ∀ (pw : ℝ → ℝ → ℝ) (g : ℝ) (a b : NDArray),
      a.shape = b.shape → a.data = b.data →
        wavelength2rgb pw a g = wavelength2rgb pw b g := by
  intro pw g a b hs hd
  have : a = b := by
    cases a
    cases b
    simp_all
  rw [this]

/-- C9 witness. -/
theorem mapper_deterministic_witness :
    wavelength2rgb Real.rpow ⟨[1], [500]⟩ 1 =
      wavelength2rgb Real.rpow ⟨[1], [500]⟩ 1 :=
  mapper_deterministic Real.rpow 1 ⟨[1], [500]⟩ ⟨[1], [500]⟩ rfl rfl

/-- A triple has all three components in the unit interval. -/
def inUnit (t : ℝ × ℝ × ℝ) : Prop :=
  (0 ≤ t.1 ∧ t.1 ≤ 1) ∧ (0 ≤ t.2.1 ∧ t.2.1 ≤ 1) ∧ (0 ≤ t.2.2 ∧ t.2.2 ≤ 1)

lemma elem_inUnit {g : ℝ} (hg : 0 ≤ g) (nm : ℚ) :
    inUnit (wavelength2rgbElem Real.rpow g nm) :=
  elem_bounds hg nm

lemma gamma8_pos : (0 : ℝ) < ((4/5 : ℚ) : ℝ) := by
  norm_num

/-- C7: main builds the domain as the 400 integers 380..779 with step 1,
maps it with the default gamma, and the resulting array has shape
[1, 400, 3], hence exactly 400 columns in the wavelength dimension. -/
theorem main_domain_and_shape :
    mainNM.data.length = 400 ∧
      (∀ i : ℕ, i < 400 → mainNM.data[i]? = some (((380 + i : ℕ) : ℚ))) ∧
      (mainRGB Real.rpow).map RGBArray.shape = Except.ok [1, 400, 3] := by
  refine ⟨?_, fun i hi => ?_, rfl⟩
  · show ((List.range 400).map fun i : ℕ => ((380 + i : ℕ) : ℚ)).length = 400
    rw [List.length_map, List.length_range]
  · show ((List.range 400).map fun i : ℕ => ((380 + i : ℕ) : ℚ))[i]? =
      some (((380 + i : ℕ) : ℚ))
    rw [List.getElem?_map, List.getElem?_range hi]
    rfl

/-- C7 witness. -/
theorem main_domain_and_shape_witness :
    (399 : ℕ) < 400 ∧ mainNM.data[399]? = some (((380 + 399 : ℕ) : ℚ)) :=
  ⟨by norm_num, main_domain_and_shape.2.1 399 (by norm_num)⟩

/-- C8 counterexample: at nm = 380 with gamma 0.8 the red channel is not
0: it equals (3/10) ^ 0.8, which is positive, because the band ramp at
380 gives R = 1 and the factor 0.3 scales it to 0.3 before gamma. -/
theorem end_to_end_red_counterexample :
    (wavelength2rgbElem Real.rpow ((4/5 : ℚ) : ℝ) 380).1 ≠ 0 := by
  have hs : (scaled (380 : ℚ)).1 = 3/10 := by
    norm_num [scaled, rgbPre, falloff]
  have hc : ((scaled (380 : ℚ)).1 : ℝ) = 3/10 := by
    rw [hs]
    push_cast
    ring
  show Real.rpow ((scaled (380 : ℚ)).1 : ℝ) _ ≠ 0
  rw [hc]
  exact (Real.rpow_pos_of_pos (by norm_num) _).ne'

/-- C8 amended: the input [380, 480, 550, 650, 750] with gamma 0.8 gives
five triples each inside [0,1]^3; the triple at index 0 (nm = 380) has
B > 0 and G = 0 (its R equals its B, both (3/10) ^ 0.8 after the 0.3
boundary fall-off, so R is positive rather than 0); the triple at index 2
(nm = 550) has G = 1 before gamma and G = 1 after gamma. -/
theorem end_to_end_scenario :
    wavelength2rgb Real.rpow ⟨[5], [380, 480, 550, 650, 750]⟩ ((4/5 : ℚ) : ℝ) =
        Except.ok ⟨[1, 5, 3],
          [wavelength2rgbElem Real.rpow ((4/5 : ℚ) : ℝ) 380,
            wavelength2rgbElem Real.rpow ((4/5 : ℚ) : ℝ) 480,
            wavelength2rgbElem Real.rpow ((4/5 : ℚ) : ℝ) 550,
            wavelength2rgbElem Real.rpow ((4/5 : ℚ) : ℝ) 650,
            wavelength2rgbElem Real.rpow ((4/5 : ℚ) : ℝ) 750]⟩ ∧
      inUnit (wavelength2rgbElem Real.rpow ((4/5 : ℚ) : ℝ) 380) ∧
      inUnit (wavelength2rgbElem Real.rpow ((4/5 : ℚ) : ℝ) 480) ∧
      inUnit (wavelength2rgbElem Real.rpow ((4/5 : ℚ) : ℝ) 550) ∧
      inUnit (wavelength2rgbElem Real.rpow ((4/5 : ℚ) : ℝ) 650) ∧
      inUnit (wavelength2rgbElem Real.rpow ((4/5 : ℚ) : ℝ) 750) ∧
      0 < (wavelength2rgbElem Real.rpow ((4/5 : ℚ) : ℝ) 380).2.2 ∧
      (wavelength2rgbElem Real.rpow ((4/5 : ℚ) : ℝ) 380).2.1 = 0 ∧
      (wavelength2rgbElem Real.rpow ((4/5 : ℚ) : ℝ) 380).1 =
        (wavelength2rgbElem Real.rpow ((4/5 : ℚ) : ℝ) 380).2.2 ∧
      (scaled (550 : ℚ)).2.1 = 1 ∧
      (wavelength2rgbElem Real.rpow ((4/5 : ℚ) : ℝ) 550).2.1 = 1 := by
  have hg := gamma8_pos.le
  have hb : ((scaled (380 : ℚ)).2.2 : ℝ) = 3/10 := by
    rw [show (scaled (380 : ℚ)).2.2 = 3/10 by norm_num [scaled, rgbPre, falloff]]
    push_cast
    ring
  have hr : ((scaled (380 : ℚ)).1 : ℝ) = 3/10 := by
    rw [show (scaled (380 : ℚ)).1 = 3/10 by norm_num [scaled, rgbPre, falloff]]
    push_cast
    ring
  have hgq : ((scaled (380 : ℚ)).2.1 : ℝ) = 0 := by
    rw [show (scaled (380 : ℚ)).2.1 = 0 by norm_num [scaled, rgbPre, falloff]]
    norm_num
  have hg550 : ((scaled (550 : ℚ)).2.1 : ℝ) = 1 := by
    rw [show (scaled (550 : ℚ)).2.1 = 1 by norm_num [scaled, rgbPre, falloff]]
    norm_num
  refine ⟨rfl, elem_inUnit hg 380, elem_inUnit hg 480, elem_inUnit hg 550,
    elem_inUnit hg 650, elem_inUnit hg 750, ?_, ?_, ?_, ?_, ?_⟩
  · show 0 < Real.rpow ((scaled (380 : ℚ)).2.2 : ℝ) _
    rw [hb]
    exact Real.rpow_pos_of_pos (by norm_num) _
  · show Real.rpow ((scaled (380 : ℚ)).2.1 : ℝ) _ = 0
    rw [hgq]
    exact Real.zero_rpow gamma8_pos.ne'
  · show Real.rpow ((scaled (380 : ℚ)).1 : ℝ) _ = Real.rpow ((scaled (380 : ℚ)).2.2 : ℝ) _
    rw [hr, hb]
  · norm_num [scaled, rgbPre, falloff]
  · show Real.rpow ((scaled (550 : ℚ)).2.1 : ℝ) _ = 1
    rw [hg550]
    exact Real.one_rpow _

/-- The scaled pre-gamma value in the piecewise spec form, generic over
the ordered field. -/
def scaledSpec {α : Type*} [LinearOrderedField α] (x : α) : α × α × α :=
  ((rgbPreSpec x).1 * falloffSpec x, (rgbPreSpec x).2.1 * falloffSpec x,
    (rgbPreSpec x).2.2 * falloffSpec x)

lemma scaled_eq_spec (nm : ℚ) : scaled nm = scaledSpec nm := by
  unfold scaled scaledSpec
  rw [rgbPre_eq_spec, falloff_eq_spec]

/-- Closed min/max form of the red ramp, agreeing with the band table on
the visible range; being a lattice expression it is plainly continuous. -/
def clampR {α : Type*} [LinearOrderedField α] (x : α) : α :=
  min 1 (max 0 (max ((440 - x) / 60) ((x - 510) / 70)))

/-- Closed min/max form of the green ramp on the visible range. -/
def clampG {α : Type*} [LinearOrderedField α] (x : α) : α :=
  max 0 (min 1 (min ((x - 440) / 50) ((645 - x) / 65)))

/-- Closed min/max form of the blue ramp on the visible range. -/
def clampB {α : Type*} [LinearOrderedField α] (x : α) : α :=
  max 0 (min 1 ((510 - x) / 20))

/-- Closed min/max form of the fall-off factor on the visible range. -/
def clampF {α : Type*} [LinearOrderedField α] (x : α) : α :=
  min 1 (min (3/10 + 7/10 * (x - 380) / 40) (3/10 + 7/10 * (780 - x) / 80))

/-- The scaled pre-gamma triple in clamp form. -/
def clampScaled {α : Type*} [LinearOrderedField α] (x : α) : α × α × α :=
  (clampR x * clampF x, clampG x * clampF x, clampB x * clampF x)

lemma rgbPreSpec_eq_clamp {x : ℝ} (h1 : 380 ≤ x) (h2 : x < 780) :
    rgbPreSpec x = (clampR x, clampG x, clampB x) := by
  unfold rgbPreSpec clampR clampG clampB
  rcases lt_or_le x 440 with hA | hA
  · rw [if_pos ⟨h1, hA⟩,
      max_eq_left (by linarith : (x - 510) / 70 ≤ (440 - x) / 60),
      max_eq_right (by linarith : (0 : ℝ) ≤ (440 - x) / 60),
      min_eq_right (by linarith : (440 - x) / 60 ≤ 1),
      min_eq_left (by linarith : (x - 440) / 50 ≤ (645 - x) / 65),
      min_eq_right (by linarith : (x - 440) / 50 ≤ 1),
      max_eq_left (by linarith : (x - 440) / 50 ≤ 0),
      min_eq_left (by linarith : (1 : ℝ) ≤ (510 - x) / 20),
      max_eq_right (by norm_num : (0 : ℝ) ≤ 1)]
    exact Prod.ext (by ring) rfl
  rcases lt_or_le x 490 with hB | hB
  · rw [if_neg (by rintro ⟨-, hh⟩; linarith), if_pos ⟨hA, hB⟩,
      max_eq_left (max_le (by linarith) (by linarith) :
        max ((440 - x) / 60) ((x - 510) / 70) ≤ 0),
      min_eq_right (by norm_num : (0 : ℝ) ≤ 1),
      min_eq_left (by linarith : (x - 440) / 50 ≤ (645 - x) / 65),
      min_eq_right (by linarith : (x - 440) / 50 ≤ 1),
      max_eq_right (by linarith : (0 : ℝ) ≤ (x - 440) / 50),
      min_eq_left (by linarith : (1 : ℝ) ≤ (510 - x) / 20),
      max_eq_right (by norm_num : (0 : ℝ) ≤ 1)]
  rcases lt_or_le x 510 with hC | hC
  · rw [if_neg (by rintro ⟨-, hh⟩; linarith),
      if_neg (by rintro ⟨-, hh⟩; linarith), if_pos ⟨hB, hC⟩,
      max_eq_left (max_le (by linarith) (by linarith) :
        max ((440 - x) / 60) ((x - 510) / 70) ≤ 0),
      min_eq_right (by norm_num : (0 : ℝ) ≤ 1),
      min_eq_left (by linarith : (x - 440) / 50 ≤ (645 - x) / 65),
      min_eq_left (by linarith : (1 : ℝ) ≤ (x - 440) / 50),
      max_eq_right (by norm_num : (0 : ℝ) ≤ 1),
      min_eq_right (by linarith : (510 - x) / 20 ≤ 1),
      max_eq_right (by linarith : (0 : ℝ) ≤ (510 - x) / 20)]
    exact Prod.ext rfl (Prod.ext rfl (by ring))
  rcases lt_or_le x 580 with hD | hD
  · rw [if_neg (by rintro ⟨-, hh⟩; linarith),
      if_neg (by rintro ⟨-, hh⟩; linarith),
      if_neg (by rintro ⟨-, hh⟩; linarith), if_pos ⟨hC, hD⟩,
      max_eq_right (by linarith : (440 - x) / 60 ≤ (x - 510) / 70),
      max_eq_right (by linarith : (0 : ℝ) ≤ (x - 510) / 70),
      min_eq_right (by linarith : (x - 510) / 70 ≤ 1),
      min_eq_left (le_min (by linarith) (by linarith) :
        (1 : ℝ) ≤ min ((x - 440) / 50) ((645 - x) / 65)),
      max_eq_right (by norm_num : (0 : ℝ) ≤ 1),
      min_eq_right (by linarith : (510 - x) / 20 ≤ 1),
      max_eq_left (by linarith : (510 - x) / 20 ≤ 0)]
  rcases lt_or_le x 645 with hE | hE
  · rw [if_neg (by rintro ⟨-, hh⟩; linarith),
      if_neg (by rintro ⟨-, hh⟩; linarith),
      if_neg (by rintro ⟨-, hh⟩; linarith),
      if_neg (by rintro ⟨-, hh⟩; linarith), if_pos ⟨hD, hE⟩,
      max_eq_right (by linarith : (440 - x) / 60 ≤ (x - 510) / 70),
      max_eq_right (by linarith : (0 : ℝ) ≤ (x - 510) / 70),
      min_eq_left (by linarith : (1 : ℝ) ≤ (x - 510) / 70),
      min_eq_right (by linarith : (645 - x) / 65 ≤ (x - 440) / 50),
      min_eq_right (by linarith : (645 - x) / 65 ≤ 1),
      max_eq_right (by linarith : (0 : ℝ) ≤ (645 - x) / 65),
      min_eq_right (by linarith : (510 - x) / 20 ≤ 1),
      max_eq_left (by linarith : (510 - x) / 20 ≤ 0)]
    exact Prod.ext rfl (Prod.ext (by ring) rfl)
  · rw [if_neg (by rintro ⟨-, hh⟩; linarith),
      if_neg (by rintro ⟨-, hh⟩; linarith),
      if_neg (by rintro ⟨-, hh⟩; linarith),
      if_neg (by rintro ⟨-, hh⟩; linarith),
      if_neg (by rintro ⟨-, hh⟩; linarith), if_pos ⟨hE, h2⟩,
      max_eq_right (by linarith : (440 - x) / 60 ≤ (x - 510) / 70),
      max_eq_right (by linarith : (0 : ℝ) ≤ (x - 510) / 70),
      min_eq_left (by linarith : (1 : ℝ) ≤ (x - 510) / 70),
      min_eq_right (by linarith : (645 - x) / 65 ≤ (x - 440) / 50),
      min_eq_right (by linarith : (645 - x) / 65 ≤ 1),
      max_eq_left (by linarith : (645 - x) / 65 ≤ 0),
      min_eq_right (by linarith : (510 - x) / 20 ≤ 1),
      max_eq_left (by linarith : (510 - x) / 20 ≤ 0)]

lemma falloffSpec_eq_clamp {x : ℝ} (h1 : 380 ≤ x) (h2 : x < 780) :
    falloffSpec x = clampF x := by
  unfold falloffSpec clampF
  rcases lt_or_le x 420 with hA | hA
  · rw [if_pos ⟨h1, hA⟩,
      min_eq_left (by linarith :
        3/10 + 7/10 * (x - 380) / 40 ≤ 3/10 + 7/10 * (780 - x) / 80),
      min_eq_right (by linarith : 3/10 + 7/10 * (x - 380) / 40 ≤ 1)]
  rcases le_or_lt x 700 with hB | hB
  · rw [if_neg (by rintro ⟨-, hh⟩; linarith),
      if_neg (by rintro ⟨hh, -⟩; linarith),
      min_eq_left (le_min (by linarith) (by linarith) :
        (1 : ℝ) ≤ min (3/10 + 7/10 * (x - 380) / 40)
          (3/10 + 7/10 * (780 - x) / 80))]
  · rw [if_neg (by rintro ⟨-, hh⟩; linarith), if_pos ⟨hB, by linarith⟩,
      min_eq_right (by linarith :
        3/10 + 7/10 * (780 - x) / 80 ≤ 3/10 + 7/10 * (x - 380) / 40),
      min_eq_right (by linarith : 3/10 + 7/10 * (780 - x) / 80 ≤ 1)]

lemma scaledSpec_eq_clamp {x : ℝ} (h1 : 380 ≤ x) (h2 : x < 780) :
    scaledSpec x = clampScaled x := by
  unfold scaledSpec clampScaled
  rw [rgbPreSpec_eq_clamp h1 h2, falloffSpec_eq_clamp h1 h2]

lemma continuous_clampScaled : Continuous fun x : ℝ => clampScaled x := by
  have cR : Continuous fun x : ℝ => clampR x := by
    unfold clampR
    exact continuous_const.min (continuous_const.max
      (((continuous_const.sub continuous_id).div_const 60).max
        ((continuous_id.sub continuous_const).div_const 70)))
  have cG : Continuous fun x : ℝ => clampG x := by
    unfold clampG
    exact continuous_const.max (continuous_const.min
      (((continuous_id.sub continuous_const).div_const 50).min
        ((continuous_const.sub continuous_id).div_const 65)))
  have cB : Continuous fun x : ℝ => clampB x := by
    unfold clampB
    exact continuous_const.max (continuous_const.min
      ((continuous_const.sub continuous_id).div_const 20))
  have cF : Continuous fun x : ℝ => clampF x := by
    unfold clampF
    exact continuous_const.min
      ((continuous_const.add ((continuous_const.mul
          (continuous_id.sub continuous_const)).div_const 40)).min
        (continuous_const.add ((continuous_const.mul
          (continuous_const.sub continuous_id)).div_const 80)))
  unfold clampScaled
  exact (cR.mul cF).prod_mk ((cG.mul cF).prod_mk (cB.mul cF))

/-- C10: at every interior band boundary the ramp of the band below,
evaluated at the boundary, equals the value of the band starting there;
the fall-off formulas are exactly 1 at 420 and at 700; and the scaled
pre-gamma mapping, as a function of a real wavelength, is continuous on
[380, 780). -/
theorem boundary_matching_and_continuity :
    (∀ nm : ℚ, scaled nm = scaledSpec nm) ∧
      (-((440 : ℚ) - 440) / 60, (0 : ℚ), (1 : ℚ)) = rgbPreSpec (440 : ℚ) ∧
      ((0 : ℚ), ((490 : ℚ) - 440) / 50, (1 : ℚ)) = rgbPreSpec (490 : ℚ) ∧
      ((0 : ℚ), (1 : ℚ), -((510 : ℚ) - 510) / 20) = rgbPreSpec (510 : ℚ) ∧
      (((580 : ℚ) - 510) / 70, (1 : ℚ), (0 : ℚ)) = rgbPreSpec (580 : ℚ) ∧
      ((1 : ℚ), -((645 : ℚ) - 645) / 65, (0 : ℚ)) = rgbPreSpec (645 : ℚ) ∧
      (3/10 + 7/10 * ((420 : ℚ) - 380) / 40 = 1 ∧ falloffSpec (420 : ℚ) = 1) ∧
      (3/10 + 7/10 * (780 - (700 : ℚ)) / 80 = 1 ∧ falloffSpec (700 : ℚ) = 1) ∧
      ContinuousOn (fun x : ℝ => scaledSpec x) (Set.Ico 380 780) := by
  refine ⟨scaled_eq_spec, by norm_num [rgbPreSpec], by norm_num [rgbPreSpec],
    by norm_num [rgbPreSpec], by norm_num [rgbPreSpec], by norm_num [rgbPreSpec],
    ⟨by norm_num, by norm_num [falloffSpec]⟩,
    ⟨by norm_num, by norm_num [falloffSpec]⟩, ?_⟩
  exact continuous_clampScaled.continuousOn.congr
    fun x hx => scaledSpec_eq_clamp hx.1 hx.2

end SpekCheck
